import Mathlib

/-!
Shallow embedding of the calculation engine of `src/src/App.tsx`
(finance_calculator): the amortized payment helper, the two policy lookup
tables, the three scenario calculators, and the best-option fold used by the
`App` component. JavaScript numbers are modelled by exact rationals `ℚ`.
The lease term is modelled as an integer (`ℤ`): the input form constrains it
to a slider with step 1 (min 1, max 5), and every `Math.pow` exponent in the
engine is this term or `term * 12`, so integer exponents (`zpow` over `ℚ`)
model every exponentiation the engine performs.  The standalone lookup
`residualPercentForTerm` is defined on all of `ℚ`, as in the source.
-/

/-- JavaScript `Math.round`: round half toward positive infinity,
`Math.round x = ⌊x + 0.5⌋`. -/
def jsRound (x : ℚ) : ℤ := ⌊x + 1/2⌋

/-- The `Inputs` record of `App.tsx` (lines 4-13). -/
structure Inputs where
  vehiclePrice : ℚ
  leaseTermYears : ℤ
  leaseMonthlyPreTax : ℚ
  runningCostsAnnual : ℚ
  providerFeesAnnual : ℚ
  annualIncome : ℚ
  loanRate : ℚ
  savingsRate : ℚ
deriving DecidableEq

/-- The `Result` shape `{ monthly, total, details }` of `App.tsx` (lines
15-19); `details` is a string-keyed map of numbers in the source, modelled
here by a per-scenario structure with the exact keys used. -/
structure Result (Details : Type) where
  monthly : ℚ
  total : ℚ
  details : Details
deriving DecidableEq

/-- Detail keys produced by `calculateNovated` (lines 89-97). -/
structure NovatedDetails where
  leaseMonthly : ℚ
  runningMonthly : ℚ
  feesMonthly : ℚ
  residual : ℚ
  gstSavings : ℚ
  residualPercent : ℚ
  taxRate : ℚ
deriving DecidableEq

/-- Detail keys produced by `calculateOutright` (line 110). -/
structure OutrightDetails where
  totalRunning : ℚ
  forgoneInterest : ℚ
deriving DecidableEq

/-- Detail keys produced by `calculateLoan` (line 130). -/
structure LoanDetails where
  monthlyPayment : ℚ
  runningMonthly : ℚ
  interestEarned : ℚ
deriving DecidableEq

/-- `paymentNoResidual` of `App.tsx` (lines 38-50): level monthly payment
amortizing `principal` over `months` periods at `annualRatePct`, with an
explicit zero-rate branch.  `Math.pow (1 + monthlyRate) (-months)` is `zpow`
over `ℚ` for the integer exponent. -/
def paymentNoResidual (principal annualRatePct : ℚ) (months : ℤ) : ℚ :=
  let monthlyRate := annualRatePct / 100 / 12
  if monthlyRate = 0 then principal / (months : ℚ)
  else principal * monthlyRate / (1 - (1 + monthlyRate) ^ (-months))

/-- Modelled from the spec: `paymentWithResidual` (spec section 4.1) is part of
the Amortized Payment Calculator contract but is absent from `src/` (only
`paymentNoResidual` appears there).  Faithful to the spec's words: discount the
residual to present value over `months` periods, subtract from `principal`,
then apply the level-payment formula; zero-rate branch is
`(principal - residual) / months`. -/
def paymentWithResidual (principal annualRatePct : ℚ) (months : ℤ)
    (residual : ℚ) : ℚ :=
  let monthlyRate := annualRatePct / 100 / 12
  if monthlyRate = 0 then (principal - residual) / (months : ℚ)
  else
    let adjusted := principal - residual / (1 + monthlyRate) ^ months
    adjusted * monthlyRate / (1 - (1 + monthlyRate) ^ (-months))

/-- Checked evaluator for `paymentNoResidual`: returns `none` exactly when a
division it performs would have a zero divisor, `some` of the payment
otherwise.  This models the claim that the function never fails (JavaScript
would produce a non-finite number on a zero divisor). -/
def paymentNoResidualChecked (principal annualRatePct : ℚ)
    (months : ℤ) : Option ℚ :=
  let monthlyRate := annualRatePct / 100 / 12
  if monthlyRate = 0 then
    if (months : ℚ) = 0 then none else some (principal / (months : ℚ))
  else
    let denom := 1 - (1 + monthlyRate) ^ (-months)
    if denom = 0 then none
    else some (principal * monthlyRate / denom)

/-- Checked evaluator for `paymentWithResidual`: `none` exactly when a divisor
(the month count, the residual discount factor, or the annuity denominator)
is zero. -/
def paymentWithResidualChecked (principal annualRatePct : ℚ) (months : ℤ)
    (residual : ℚ) : Option ℚ :=
  let monthlyRate := annualRatePct / 100 / 12
  if monthlyRate = 0 then
    if (months : ℚ) = 0 then none
    else some ((principal - residual) / (months : ℚ))
  else
    if ((1 + monthlyRate) ^ months : ℚ) = 0 then none
    else
      let adjusted := principal - residual / (1 + monthlyRate) ^ months
      let denom := 1 - (1 + monthlyRate) ^ (-months)
      if denom = 0 then none
      else some (adjusted * monthlyRate / denom)

/-- `residualPercentForTerm` of `App.tsx` (lines 52-62): the ATO minimum
residual table `{1: 65, 2: 56.25, 3: 46.88, 4: 37.5, 5: 28.13}` keyed by
`Math.round leaseTermYears`, with `?? 37.5` fallback. -/
def residualPercentForTerm (leaseTermYears : ℚ) : ℚ :=
  let r := jsRound leaseTermYears
  if r = 1 then 65
  else if r = 2 then 56.25
  else if r = 3 then 46.88
  else if r = 4 then 37.5
  else if r = 5 then 28.13
  else 37.5

/-- `marginalTaxRateForIncome` of `App.tsx` (lines 64-71): 2024-25 stage 3
brackets, boundaries resolving down via `<=`. -/
def marginalTaxRateForIncome (annualIncome : ℚ) : ℚ :=
  if annualIncome ≤ 18200 then 0
  else if annualIncome ≤ 45000 then 0.16
  else if annualIncome ≤ 135000 then 0.3
  else if annualIncome ≤ 190000 then 0.37
  else 0.45

/-- `calculateNovated` of `App.tsx` (lines 73-99). -/
def calculateNovated (inputs : Inputs) : Result NovatedDetails :=
  let months : ℤ := inputs.leaseTermYears * 12
  let residualPercent := residualPercentForTerm (inputs.leaseTermYears : ℚ)
  let residual := inputs.vehiclePrice * (residualPercent / 100)
  let gstSavings := inputs.vehiclePrice * 0.1
  let leaseMonthly := inputs.leaseMonthlyPreTax
  let runningMonthly := inputs.runningCostsAnnual / 12
  let feesMonthly := inputs.providerFeesAnnual / 12
  let bundlePreTax := leaseMonthly + runningMonthly + feesMonthly
  let taxRate := marginalTaxRateForIncome inputs.annualIncome
  let netMonthly := bundlePreTax * (1 - taxRate)
  let total := netMonthly * (months : ℚ) + residual
  { monthly := netMonthly
    total := total
    details :=
      { leaseMonthly := leaseMonthly
        runningMonthly := runningMonthly
        feesMonthly := feesMonthly
        residual := residual
        gstSavings := gstSavings
        residualPercent := residualPercent
        taxRate := taxRate } }

/-- `calculateOutright` of `App.tsx` (lines 101-112). -/
def calculateOutright (inputs : Inputs) : Result OutrightDetails :=
  let totalRunning := inputs.runningCostsAnnual * (inputs.leaseTermYears : ℚ)
  let forgoneInterest :=
    inputs.vehiclePrice *
      ((1 + inputs.savingsRate / 100) ^ inputs.leaseTermYears - 1)
  let total := inputs.vehiclePrice + totalRunning + forgoneInterest
  { monthly := total / ((inputs.leaseTermYears * 12 : ℤ) : ℚ)
    total := total
    details :=
      { totalRunning := totalRunning
        forgoneInterest := forgoneInterest } }

/-- `calculateLoan` of `App.tsx` (lines 114-132). -/
def calculateLoan (inputs : Inputs) : Result LoanDetails :=
  let months : ℤ := inputs.leaseTermYears * 12
  let monthlyPayment :=
    paymentNoResidual inputs.vehiclePrice inputs.loanRate months
  let runningMonthly := inputs.runningCostsAnnual / 12
  let totalPayments := (monthlyPayment + runningMonthly) * (months : ℚ)
  let interestEarned :=
    inputs.vehiclePrice *
      ((1 + inputs.savingsRate / 100) ^ inputs.leaseTermYears - 1)
  let total := totalPayments - interestEarned
  { monthly := monthlyPayment + runningMonthly
    total := total
    details :=
      { monthlyPayment := monthlyPayment
        runningMonthly := runningMonthly
        interestEarned := interestEarned } }

/-- The `comparisons.reduce` fold of `App.tsx` (lines 190-192): seeded with
the first element, replace the accumulator only when the current element's
total is strictly smaller. -/
def reduceBest {α : Type} (total : α → ℚ) (first : α) (rest : List α) : α :=
  rest.foldl (fun prev curr => if total curr < total prev then curr else prev)
    first

/-- The labelled `(label, total)` triple the `App` component folds over, in
encounter order lease, outright, loan (lines 184-188). -/
def comparisons (inputs : Inputs) : List (String × ℚ) :=
  [("Novated lease (net after tax)", (calculateNovated inputs).total),
   ("Buy outright", (calculateOutright inputs).total),
   ("Standard car loan", (calculateLoan inputs).total)]

/-- The `best` selection of `App.tsx` (lines 190-192). -/
def best (inputs : Inputs) : String × ℚ :=
  reduceBest Prod.snd
    ("Novated lease (net after tax)", (calculateNovated inputs).total)
    [("Buy outright", (calculateOutright inputs).total),
     ("Standard car loan", (calculateLoan inputs).total)]

/-! Helper lemmas shared by the claim theorems. -/

/-- Every entry of the residual table, including the fallback, is positive. -/
theorem residualPercentForTerm_pos (t : ℚ) : 0 < residualPercentForTerm t := by
  simp only [residualPercentForTerm]
  split_ifs <;> norm_num

/-- The amortized payment is linear in the principal: both branches scale. -/
theorem paymentNoResidual_smul (p r : ℚ) (m : ℤ) :
    paymentNoResidual p r m = p * paymentNoResidual 1 r m := by
  simp only [paymentNoResidual]
  split_ifs with h
  · exact (mul_one_div p _).symm
  · rw [one_mul, mul_div_assoc]

/-- Claim C1 (counterexample): the lease scenario's `leaseMonthly` figure is an
independently supplied value, not a computed amortized payment.  The two inputs
below agree on every field — in particular on `vehiclePrice` (hence on the
financed principal `price - price * 0.1`, the months, and the residual, the
only data `paymentWithResidual` could be applied to, `leaseRate` not being an
input at all) — and differ only in the user-entered `leaseMonthlyPreTax`, yet
`calculateNovated` reports different `leaseMonthly` figures, so `leaseMonthly`
cannot equal any function of the financed principal, term, and residual. -/
theorem claim_C1_counterexample :
    (calculateNovated ⟨65000, 4, 950, 5500, 400, 135000, 9, 4.5⟩).details.leaseMonthly
        = 950 ∧
    (calculateNovated ⟨65000, 4, 960, 5500, 400, 135000, 9, 4.5⟩).details.leaseMonthly
        = 960 ∧
    (950 : ℚ) ≠ 960 :=
  ⟨rfl, rfl, by norm_num⟩

/-- Claim C1 (amended): for every input record, the lease scenario's
`leaseMonthly` figure used in the pre-tax bundle is the user-entered
`leaseMonthlyPreTax` taken verbatim; the GST saving `price * 0.1` is computed
and reported in the details only and does not reduce any financed principal
(no amortized lease payment is computed anywhere in the scenario); the monthly
bundle is `(leaseMonthlyPreTax + running/12 + fees/12) * (1 - taxRate)`. -/
theorem claim_C1_amended (i : Inputs) :
    (calculateNovated i).details.leaseMonthly = i.leaseMonthlyPreTax ∧
    (calculateNovated i).details.gstSavings = i.vehiclePrice * 0.1 ∧
    (calculateNovated i).monthly =
      (i.leaseMonthlyPreTax + i.runningCostsAnnual / 12 +
        i.providerFeesAnnual / 12) *
        (1 - marginalTaxRateForIncome i.annualIncome) :=
  ⟨rfl, rfl, rfl⟩

/-- Claim C3: the loan scenario uses the lease term (`months = years * 12`),
computes its payment via the no-residual amortized payment at the loan's rate,
adds the flat running-cost share, and its total is
`(payment + runningMonthly) * months - interestEarned` where `interestEarned`
coincides with the outright scenario's `forgoneInterest`,
`price * ((1 + savingsRate/100) ^ years - 1)`. -/
theorem claim_C3 (i : Inputs) :
    (calculateLoan i).total =
      (paymentNoResidual i.vehiclePrice i.loanRate (i.leaseTermYears * 12) +
          i.runningCostsAnnual / 12) * ((i.leaseTermYears * 12 : ℤ) : ℚ) -
        (calculateOutright i).details.forgoneInterest ∧
    (calculateLoan i).details.interestEarned =
      (calculateOutright i).details.forgoneInterest ∧
    (calculateOutright i).details.forgoneInterest =
      i.vehiclePrice * ((1 + i.savingsRate / 100) ^ i.leaseTermYears - 1) ∧
    (calculateLoan i).monthly =
      paymentNoResidual i.vehiclePrice i.loanRate (i.leaseTermYears * 12) +
        i.runningCostsAnnual / 12 :=
  ⟨rfl, rfl, rfl, rfl⟩

/-- Claim C4: the lease total is `netMonthly * months + residual`: the
tax-adjustment factor `(1 - taxRate)` multiplies only the monthly bundle,
and the residual lump sum `price * residualPercent / 100` is added to the
total with no tax adjustment. -/
theorem claim_C4 (i : Inputs) :
    (calculateNovated i).total =
      (calculateNovated i).monthly * ((i.leaseTermYears * 12 : ℤ) : ℚ) +
        (calculateNovated i).details.residual ∧
    (calculateNovated i).monthly =
      ((calculateNovated i).details.leaseMonthly +
          (calculateNovated i).details.runningMonthly +
          (calculateNovated i).details.feesMonthly) *
        (1 - (calculateNovated i).details.taxRate) ∧
    (calculateNovated i).details.residual =
      i.vehiclePrice * (residualPercentForTerm (i.leaseTermYears : ℚ) / 100) :=
  ⟨rfl, rfl, rfl⟩

/-- Claim C5: the marginal-tax-rate lookup is the stated step function of
annual income, with every bracket boundary resolving to the lower bracket;
in particular income 45000 yields 16 percent, not 30. -/
theorem claim_C5 :
    (∀ income : ℚ,
      (income ≤ 18200 → marginalTaxRateForIncome income = 0) ∧
      (18200 < income → income ≤ 45000 →
        marginalTaxRateForIncome income = 0.16) ∧
      (45000 < income → income ≤ 135000 →
        marginalTaxRateForIncome income = 0.3) ∧
      (135000 < income → income ≤ 190000 →
        marginalTaxRateForIncome income = 0.37) ∧
      (190000 < income → marginalTaxRateForIncome income = 0.45)) ∧
    marginalTaxRateForIncome 45000 = 0.16 := by
  constructor
  · intro income
    refine ⟨?_, ?_, ?_, ?_, ?_⟩ <;> intros <;>
      simp only [marginalTaxRateForIncome] <;> split_ifs <;>
      first | rfl | linarith
  · norm_num [marginalTaxRateForIncome]

/-- Claim C5 witness: the theorem applied at incomes 30000 and 45000. -/
theorem claim_C5_witness :
    marginalTaxRateForIncome 30000 = 0.16 ∧
    marginalTaxRateForIncome 45000 = 0.16 :=
  ⟨(claim_C5.1 30000).2.1 (by norm_num) (by norm_num), claim_C5.2⟩

/-- Claim C6: the residual-percentage lookup, keyed by the rounded lease term,
returns 65 for 1, 56.25 for 2, 46.88 for 3, 37.5 for 4, 28.13 for 5 and
falls back to 37.5 for every other rounded term; term 0 and term 6 give 37.5,
and term 2.4 rounds to 2 and gives 56.25. -/
theorem claim_C6 :
    (∀ t : ℚ,
      (jsRound t = 1 → residualPercentForTerm t = 65) ∧
      (jsRound t = 2 → residualPercentForTerm t = 56.25) ∧
      (jsRound t = 3 → residualPercentForTerm t = 46.88) ∧
      (jsRound t = 4 → residualPercentForTerm t = 37.5) ∧
      (jsRound t = 5 → residualPercentForTerm t = 28.13) ∧
      (jsRound t ≠ 1 → jsRound t ≠ 2 → jsRound t ≠ 3 → jsRound t ≠ 4 →
        jsRound t ≠ 5 → residualPercentForTerm t = 37.5)) ∧
    residualPercentForTerm 0 = 37.5 ∧
    residualPercentForTerm 6 = 37.5 ∧
    jsRound 2.4 = 2 ∧
    residualPercentForTerm 2.4 = 56.25 := by
  refine ⟨?_, ?_, ?_, ?_, ?_⟩
  · intro t
    refine ⟨?_, ?_, ?_, ?_, ?_, ?_⟩ <;> intros <;>
      simp only [residualPercentForTerm] <;> split_ifs <;>
      first | rfl | omega
  · norm_num [residualPercentForTerm, jsRound]
  · norm_num [residualPercentForTerm, jsRound]
  · norm_num [jsRound]
  · norm_num [residualPercentForTerm, jsRound]

/-- Claim C6 witness: the theorem applied at terms 2.4 (rounding to 2) and 37
(outside the table, falling back). -/
theorem claim_C6_witness :
    residualPercentForTerm 2.4 = 56.25 ∧ residualPercentForTerm 37 = 37.5 :=
  ⟨(claim_C6.1 2.4).2.1 (by norm_num [jsRound]),
   (claim_C6.1 37).2.2.2.2.2 (by norm_num [jsRound]) (by norm_num [jsRound])
     (by norm_num [jsRound]) (by norm_num [jsRound]) (by norm_num [jsRound])⟩

/-- Claim C10: the lease scenario's `monthly` output and its `leaseMonthly`,
`runningMonthly`, `feesMonthly`, `taxRate` (and `residualPercent`) detail
figures are independent of the vehicle price: changing only `vehiclePrice`
leaves all of them unchanged, because the monthly lease payment is the
user-entered pre-tax quote. -/
theorem claim_C10 (i : Inputs) (p : ℚ) :
    (calculateNovated { i with vehiclePrice := p }).monthly =
      (calculateNovated i).monthly ∧
    (calculateNovated { i with vehiclePrice := p }).details.leaseMonthly =
      (calculateNovated i).details.leaseMonthly ∧
    (calculateNovated { i with vehiclePrice := p }).details.runningMonthly =
      (calculateNovated i).details.runningMonthly ∧
    (calculateNovated { i with vehiclePrice := p }).details.feesMonthly =
      (calculateNovated i).details.feesMonthly ∧
    (calculateNovated { i with vehiclePrice := p }).details.taxRate =
      (calculateNovated i).details.taxRate ∧
    (calculateNovated { i with vehiclePrice := p }).details.residualPercent =
      (calculateNovated i).details.residualPercent :=
  ⟨rfl, rfl, rfl, rfl, rfl, rfl⟩

/-- Claim C7: over the domain `principal >= 0`, `months >= 1` (integer),
`annualRatePct >= 0`, `0 <= residual <= principal`, both amortized-payment
entry points are total: every division they perform has a nonzero divisor,
so the checked evaluators (which return `none` on any zero divisor) return
`some` of the computed payment, including in the zero-rate branch. -/
theorem claim_C7 (principal annualRatePct : ℚ) (months : ℤ) (residual : ℚ)
    (hp : 0 ≤ principal) (hm : 1 ≤ months) (hr : 0 ≤ annualRatePct)
    (hres0 : 0 ≤ residual) (hres1 : residual ≤ principal) :
    paymentNoResidualChecked principal annualRatePct months =
      some (paymentNoResidual principal annualRatePct months) ∧
    paymentWithResidualChecked principal annualRatePct months residual =
      some (paymentWithResidual principal annualRatePct months residual) := by
  have hm0 : ((months : ℚ)) ≠ 0 := by
    have : (months : ℤ) ≠ 0 := by omega
    exact_mod_cast this
  by_cases h0 : annualRatePct / 100 / 12 = 0
  · constructor <;>
      simp [paymentNoResidualChecked, paymentNoResidual,
        paymentWithResidualChecked, paymentWithResidual, h0, hm0]
  · have hrate : 0 < annualRatePct := by
      rcases lt_or_eq_of_le hr with h | h
      · exact h
      · exact absurd (by rw [← h]; norm_num) h0
    have hmr : 0 < annualRatePct / 100 / 12 := by positivity
    have hbase : 1 < 1 + annualRatePct / 100 / 12 := by linarith
    have hzpow : 1 < (1 + annualRatePct / 100 / 12) ^ months :=
      one_lt_zpow₀ hbase (by omega)
    have hpow_pos : (0 : ℚ) < (1 + annualRatePct / 100 / 12) ^ months := by
      linarith
    have hdenom : (0 : ℚ) < 1 - (1 + annualRatePct / 100 / 12) ^ (-months) := by
      rw [zpow_neg]
      have hinv : ((1 + annualRatePct / 100 / 12) ^ months)⁻¹ < 1 :=
        inv_lt_one_of_one_lt₀ hzpow
      linarith
    have hdenom' :
        (0 : ℚ) < 1 - ((1 + annualRatePct / 100 / 12) ^ months)⁻¹ := by
      rw [← zpow_neg]
      exact hdenom
    constructor <;>
      simp [paymentNoResidualChecked, paymentNoResidual,
        paymentWithResidualChecked, paymentWithResidual, h0, hm0,
        hdenom.ne', hdenom'.ne', hpow_pos.ne']

/-- Claim C7 witness: the theorem applied at principal 100, rate 12 percent,
12 months, residual 50. -/
theorem claim_C7_witness :
    paymentNoResidualChecked 100 12 12 = some (paymentNoResidual 100 12 12) ∧
    paymentWithResidualChecked 100 12 12 50 =
      some (paymentWithResidual 100 12 12 50) :=
  ⟨(claim_C7 100 12 12 50 (by norm_num) (by norm_num) (by norm_num)
      (by norm_num) (by norm_num)).1,
   (claim_C7 100 12 12 50 (by norm_num) (by norm_num) (by norm_num)
      (by norm_num) (by norm_num)).2⟩

/-- Claim C8: for every `principal >= 0` and integer `months >= 1`, the
zero-rate case is the explicit linear-amortization branch:
`paymentNoResidual principal 0 months = principal / months`. -/
theorem claim_C8 (principal : ℚ) (months : ℤ) (hp : 0 ≤ principal)
    (hm : 1 ≤ months) :
    paymentNoResidual principal 0 months = principal / (months : ℚ) := by
  simp [paymentNoResidual]

/-- Claim C8 witness: the theorem applied at principal 120 over 12 months. -/
theorem claim_C8_witness : paymentNoResidual 120 0 12 = 10 := by
  rw [claim_C8 120 12 (by norm_num) (by norm_num)]
  norm_num

/-- Claim C2 (counterexample): increasing the vehicle price does NOT strictly
increase every scenario's total.  With all other fields held fixed (term 4
years, running costs 5500, loan rate 0, savings rate 20 — all inside the
spec's non-negative domain), raising the price from 625 to 1250 strictly
LOWERS the loan scenario's total, because the loan total subtracts
`price * ((1 + savingsRate/100) ^ years - 1)` and at these rates that
forgone-interest term grows faster than the payment stream. -/
theorem claim_C2_counterexample :
    (625 : ℚ) < 1250 ∧
    (calculateLoan ⟨1250, 4, 950, 5500, 400, 135000, 0, 20⟩).total <
      (calculateLoan ⟨625, 4, 950, 5500, 400, 135000, 0, 20⟩).total := by
  constructor
  · norm_num
  · norm_num [calculateLoan, paymentNoResidual]

/-- Claim C2 (amended): holding all other fields fixed, a strictly larger
vehicle price strictly increases the lease total (unconditionally, since the
residual percentage is always positive) and the outright total (whenever
`savingsRate >= 0`); the loan total strictly increases only under the further
condition that the per-principal payment stream
`paymentNoResidual 1 loanRate months * months` exceeds the growth factor
`(1 + savingsRate/100) ^ years - 1` — the counterexample shows it can
otherwise strictly decrease. -/
theorem claim_C2_amended (i : Inputs) (p1 p2 : ℚ) (hp : p1 < p2) :
    (calculateNovated { i with vehiclePrice := p1 }).total <
      (calculateNovated { i with vehiclePrice := p2 }).total ∧
    (0 ≤ i.savingsRate →
      (calculateOutright { i with vehiclePrice := p1 }).total <
        (calculateOutright { i with vehiclePrice := p2 }).total) ∧
    ((1 + i.savingsRate / 100) ^ i.leaseTermYears - 1 <
        paymentNoResidual 1 i.loanRate (i.leaseTermYears * 12) *
          ((i.leaseTermYears * 12 : ℤ) : ℚ) →
      (calculateLoan { i with vehiclePrice := p1 }).total <
        (calculateLoan { i with vehiclePrice := p2 }).total) := by
  refine ⟨?_, ?_, ?_⟩
  · simp only [calculateNovated]
    have key :=
      mul_lt_mul_of_pos_right hp
        (div_pos (residualPercentForTerm_pos ((i.leaseTermYears : ℤ) : ℚ))
          (by norm_num : (0 : ℚ) < 100))
    linarith
  · intro hs
    have hpow : (0 : ℚ) < (1 + i.savingsRate / 100) ^ i.leaseTermYears :=
      zpow_pos (by linarith) _
    simp only [calculateOutright]
    nlinarith [mul_lt_mul_of_pos_right hp hpow]
  · intro hF
    have hlin : ∀ p : ℚ,
        (calculateLoan { i with vehiclePrice := p }).total =
          p * (paymentNoResidual 1 i.loanRate (i.leaseTermYears * 12) *
                ((i.leaseTermYears * 12 : ℤ) : ℚ) -
              ((1 + i.savingsRate / 100) ^ i.leaseTermYears - 1)) +
            i.runningCostsAnnual / 12 * ((i.leaseTermYears * 12 : ℤ) : ℚ) := by
      intro p
      simp only [calculateLoan]
      rw [paymentNoResidual_smul]
      ring
    rw [hlin p1, hlin p2]
    have key := mul_lt_mul_of_pos_right hp (sub_pos.2 hF)
    linarith

/-- Claim C2 (amended) witness: the theorem applied at prices 1000 < 2000 with
term 4 years, loan rate 0 and savings rate 0, where all three side conditions
hold, so all three totals strictly increase. -/
theorem claim_C2_amended_witness :
    (calculateNovated ⟨1000, 4, 950, 5500, 400, 135000, 0, 0⟩).total <
      (calculateNovated ⟨2000, 4, 950, 5500, 400, 135000, 0, 0⟩).total ∧
    (calculateOutright ⟨1000, 4, 950, 5500, 400, 135000, 0, 0⟩).total <
      (calculateOutright ⟨2000, 4, 950, 5500, 400, 135000, 0, 0⟩).total ∧
    (calculateLoan ⟨1000, 4, 950, 5500, 400, 135000, 0, 0⟩).total <
      (calculateLoan ⟨2000, 4, 950, 5500, 400, 135000, 0, 0⟩).total := by
  have h :=
    claim_C2_amended ⟨1000, 4, 950, 5500, 400, 135000, 0, 0⟩ 1000 2000
      (by norm_num)
  exact ⟨h.1, h.2.1 (by norm_num),
    h.2.2 (by norm_num [paymentNoResidual])⟩

/-- Claim C9: the `reduce` fold selects the Result with minimum `total`; since
it replaces the accumulator only on strict `<`, ties keep the earlier
(first-encountered) element, in the order lease, outright, loan; for totals
5000, 4800, 5200 the second is selected. -/
theorem claim_C9 :
    (∀ r1 r2 r3 : String × ℚ,
      (reduceBest Prod.snd r1 [r2, r3]).2 = min r1.2 (min r2.2 r3.2) ∧
      (r1.2 ≤ r2.2 → r1.2 ≤ r3.2 → reduceBest Prod.snd r1 [r2, r3] = r1) ∧
      (r2.2 < r1.2 → r2.2 ≤ r3.2 → reduceBest Prod.snd r1 [r2, r3] = r2) ∧
      (r3.2 < r1.2 → r3.2 < r2.2 → reduceBest Prod.snd r1 [r2, r3] = r3)) ∧
    (∀ i : Inputs,
      (best i).2 = min (calculateNovated i).total
        (min (calculateOutright i).total (calculateLoan i).total)) ∧
    reduceBest Prod.snd ("Novated lease (net after tax)", (5000 : ℚ))
      [("Buy outright", 4800), ("Standard car loan", 5200)] =
        ("Buy outright", 4800) := by
  have hmain : ∀ r1 r2 r3 : String × ℚ,
      (reduceBest Prod.snd r1 [r2, r3]).2 = min r1.2 (min r2.2 r3.2) ∧
      (r1.2 ≤ r2.2 → r1.2 ≤ r3.2 → reduceBest Prod.snd r1 [r2, r3] = r1) ∧
      (r2.2 < r1.2 → r2.2 ≤ r3.2 → reduceBest Prod.snd r1 [r2, r3] = r2) ∧
      (r3.2 < r1.2 → r3.2 < r2.2 → reduceBest Prod.snd r1 [r2, r3] = r3) := by
    intro r1 r2 r3
    simp only [reduceBest, List.foldl]
    refine ⟨?_, ?_, ?_, ?_⟩
    · split_ifs <;> rw [min_def, min_def] <;> split_ifs <;> linarith
    · intro ha hb
      split_ifs <;> first | rfl | (exfalso; linarith)
    · intro ha hb
      split_ifs <;> first | rfl | (exfalso; linarith)
    · intro ha hb
      split_ifs <;> first | rfl | (exfalso; linarith)
  refine ⟨hmain, ?_, ?_⟩
  · intro i
    exact (hmain ("Novated lease (net after tax)", (calculateNovated i).total)
      ("Buy outright", (calculateOutright i).total)
      ("Standard car loan", (calculateLoan i).total)).1
  · norm_num [reduceBest, List.foldl]

/-- Claim C9 witness: the theorem applied to a tied pair — with totals
7, 7, 9 the first-encountered element wins. -/
theorem claim_C9_witness :
    reduceBest Prod.snd ("lease", (7 : ℚ)) [("cash", 7), ("loan", 9)] =
      ("lease", 7) :=
  (claim_C9.1 ("lease", 7) ("cash", 7) ("loan", 9)).2.1 (by norm_num)
    (by norm_num)
